import Mathlib

/-!
Shallow embedding of src/main.py (news-flash): a Flask endpoint that fetches
news articles, extracts page text, summarizes it, and caches the result list
behind a TTL check.

Modelling conventions:
* Python dict fields of an article are `Option (Option String)`:
  `none` means the key is absent, `some none` means the key is present with
  value `None`, `some (some s)` means the key holds the string `s`.
* Python `None`-or-string values are `Option String` (`none` is Python `None`).
* External calls are oracles passed in as data: the news fetch outcome, and
  per-URL / per-content outcome functions for the extractor and summarizer.
  An `exn` constructor models the exception the wrapped library call raises;
  the wrapper functions below translate it to the empty fallback value exactly
  where the Python `except` clause does.
* Wall-clock times are integers; the handler reads the clock twice
  (line 101 `now`, line 138 the store time `now2`), so both are parameters.
* Call counts are returned alongside results: each model function reports how
  often it invoked each oracle, mirroring the call sites in the source.
-/

namespace NewsFlash

/-- Article record as delivered by the news API: each key may be absent,
present with Python `None`, or present with a string value. -/
structure Article where
  title : Option (Option String)
  source : Option (Option String)
  url : Option (Option String)
  published_at : Option (Option String)
deriving DecidableEq, Repr

/-- Python `d.get(key, default)`: the default is used only when the key is
absent; a present `None` value is returned as is. -/
def dictGetD (field : Option (Option String)) (default : String) : Option String :=
  match field with
  | none => some default
  | some v => v

/-- Python `d.get(key)`: `None` when the key is absent. -/
def dictGet (field : Option (Option String)) : Option String :=
  match field with
  | none => none
  | some v => v

/-- Python truthiness of a string-or-None value: `None` and the empty string
are falsy. -/
def truthy : Option String → Bool
  | none => false
  | some s => !(s == "")

/-- Per-article output record built at src/main.py lines 113 to 120. -/
structure SummaryRecord where
  title : Option String
  source : Option String
  url : Option String
  published : Option String
  summary : Option String
  error : Option String
deriving DecidableEq, Repr

/-- Python `str.isspace` characters stripped by `str.strip()`, by codepoint. -/
def pyIsSpace (c : Char) : Bool :=
  c.toNat == 0x20 || c.toNat == 0x09 || c.toNat == 0x0a || c.toNat == 0x0b ||
  c.toNat == 0x0c || c.toNat == 0x0d || c.toNat == 0x1c || c.toNat == 0x1d ||
  c.toNat == 0x1e || c.toNat == 0x1f || c.toNat == 0x85 || c.toNat == 0xa0 ||
  c.toNat == 0x1680 || (0x2000 ≤ c.toNat && c.toNat ≤ 0x200a) ||
  c.toNat == 0x2028 || c.toNat == 0x2029 || c.toNat == 0x202f ||
  c.toNat == 0x205f || c.toNat == 0x3000

/-- Line boundary characters recognized by Python `str.splitlines`. -/
def pyIsLineBoundary (c : Char) : Bool :=
  c.toNat == 0x0a || c.toNat == 0x0d || c.toNat == 0x0b || c.toNat == 0x0c ||
  c.toNat == 0x1c || c.toNat == 0x1d || c.toNat == 0x1e || c.toNat == 0x85 ||
  c.toNat == 0x2028 || c.toNat == 0x2029

/-- Worker for `pySplitlines`: `cur` is the reversed current line. A boundary
at the very end of the input does not open a trailing empty line. -/
def pySplitlinesGo (cur : List Char) : List Char → List (List Char)
  | [] => [cur.reverse]
  | '\r' :: '\n' :: rest =>
    cur.reverse :: (match rest with
      | [] => []
      | _ :: _ => pySplitlinesGo [] rest)
  | c :: rest =>
    if pyIsLineBoundary c then
      cur.reverse :: (match rest with
        | [] => []
        | _ :: _ => pySplitlinesGo [] rest)
    else pySplitlinesGo (c :: cur) rest

/-- Python `text.splitlines()` over a character list. -/
def pySplitlines (l : List Char) : List (List Char) :=
  match l with
  | [] => []
  | _ :: _ => pySplitlinesGo [] l

/-- Python `s.lstrip()`. -/
def pyLStrip (l : List Char) : List Char := l.dropWhile pyIsSpace

/-- Python `s.rstrip()`. -/
def pyRStrip (l : List Char) : List Char := (l.reverse.dropWhile pyIsSpace).reverse

/-- Python `s.strip()`: whitespace removed from both ends. -/
def pyStrip (l : List Char) : List Char := pyRStrip (pyLStrip l)

/-- Python `line.split("  ")`: greedy left-to-right split on each occurrence
of two consecutive space characters. -/
def splitTwoSpaces : List Char → List (List Char)
  | [] => [[]]
  | [c] => [[c]]
  | c1 :: c2 :: rest =>
    if c1 = ' ' ∧ c2 = ' ' then [] :: splitTwoSpaces rest
    else
      (match splitTwoSpaces (c2 :: rest) with
        | p :: ps => (c1 :: p) :: ps
        | [] => [[c1]])

/-- Python `" ".join(pieces)` (the source joins only non-empty chunks, so the
filtering happens before this is applied). -/
def joinSpace : List (List Char) → List Char
  | [] => []
  | [c] => c
  | c :: cs => c ++ ' ' :: joinSpace cs

/-- Whitespace clean-up of `extract_content`, src/main.py lines 60 to 63:
strip each line, split lines on double spaces, strip the chunks, drop empty
chunks, join with single spaces. -/
def normalizeChars (l : List Char) : List Char :=
  let lines := (pySplitlines l).map pyStrip
  let chunks := ((lines.map splitTwoSpaces).flatten).map pyStrip
  joinSpace (chunks.filter (fun c => c ≠ []))

/-- String-level wrapper for `normalizeChars`. -/
def normalizeText (s : String) : String :=
  String.mk (normalizeChars s.data)

/-- Outcome of the news API request in `fetch_news` (src/main.py lines 31
to 36): either a `requests` exception, or a parsed JSON body whose optional
`data` field holds the article list (the API contract documents the body as
a JSON object with a `data` array). -/
inductive FetchOutcome
  | exn (msg : String)
  | ok (dataField : Option (List Article))
deriving Repr

/-- Outcome of the page fetch plus HTML parse in `extract_content`
(src/main.py lines 42 to 58): either an exception anywhere in the `try`
block, or the text produced by `soup.get_text()` after script, style and
anchor elements were decomposed. -/
inductive ExtractOutcome
  | exn (msg : String)
  | ok (pageText : String)
deriving Repr

/-- Outcome of the generative model call in `generate_summary`
(src/main.py lines 73 to 81): either an exception, or the response text. -/
inductive SummaryOutcome
  | exn (msg : String)
  | ok (respText : String)
deriving Repr

/-- Model of `fetch_news` (src/main.py lines 29 to 38): on an exception the
`except` clause returns the empty list; otherwise `data.get("data", [])`. -/
def fetch_news : FetchOutcome → List Article
  | .exn _ => []
  | .ok none => []
  | .ok (some arts) => arts

/-- Model of `extract_content` (src/main.py lines 40 to 68): on an exception
the `except` clause returns the empty string; otherwise the extracted text is
whitespace-normalized. -/
def extract_content : ExtractOutcome → String
  | .exn _ => ""
  | .ok t => normalizeText t

/-- Model of `generate_summary` (src/main.py lines 70 to 85): on an exception
the `except` clause returns the empty string; otherwise `response.text.strip()`. -/
def generate_summary : SummaryOutcome → String
  | .exn _ => ""
  | .ok t => String.mk (pyStrip t.data)

/-- Loop body of `get_summaries` for one article (src/main.py lines 112 to
136), returning the record together with the number of extractor calls and
summarizer calls made for this article. -/
def processArticle (extO : String → ExtractOutcome) (summO : String → SummaryOutcome)
    (article : Article) : SummaryRecord × Nat × Nat :=
  let base : SummaryRecord :=
    { title := dictGetD article.title "N/A"
      source := dictGetD article.source "N/A"
      url := dictGetD article.url "N/A"
      published := dictGetD article.published_at "N/A"
      summary := none
      error := none }
  let url := dictGet article.url
  if truthy url then
    let content := extract_content (extO (url.getD ""))
    if content ≠ "" then
      let summary := generate_summary (summO content)
      if summary ≠ "" then
        ({ base with summary := some summary }, 1, 1)
      else
        ({ base with error := some "Could not generate summary." }, 1, 1)
    else
      ({ base with error := some "Could not extract article content." }, 1, 0)
  else
    ({ base with error := some "No URL available for article." }, 0, 0)

/-- Sequential per-article loop of `get_summaries` (src/main.py lines 112 to
136): one record appended per article, in input order, with the total
extractor and summarizer call counts. -/
def runPipeline (extO : String → ExtractOutcome) (summO : String → SummaryOutcome) :
    List Article → List SummaryRecord × Nat × Nat
  | [] => ([], 0, 0)
  | a :: rest =>
    let r := processArticle extO summO a
    let rs := runPipeline extO summO rest
    (r.1 :: rs.1, r.2.1 + rs.2.1, r.2.2 + rs.2.2)

/-- Cache TTL constant, src/main.py line 13. -/
def CACHE_TTL : Int := 40000

/-- The module-level cache slot, src/main.py lines 14 to 17; `data = none`
models the initial `None`. -/
structure Cache where
  timestamp : Int
  data : Option (List SummaryRecord)
deriving DecidableEq, Repr

/-- Body of the JSON response: either the record list or a message object. -/
inductive RespBody
  | records (rs : List SummaryRecord)
  | message (s : String)
deriving DecidableEq, Repr

/-- HTTP response: status code and JSON body. -/
structure Resp where
  status : Nat
  body : RespBody
deriving DecidableEq, Repr

/-- Outbound call counts performed while handling one request. -/
structure Counts where
  fetchCalls : Nat
  extCalls : Nat
  summCalls : Nat
deriving DecidableEq, Repr

/-- Model of the request handler `get_summaries` (src/main.py lines 98 to
140). Parameters: the cache state at entry, the two clock reads (`now` at
line 101, `now2` at line 138), and the three external-call oracles. Returns
the response, the cache state after the request, and the call counts. -/
def get_summaries (cache : Cache) (now now2 : Int) (fetchO : FetchOutcome)
    (extO : String → ExtractOutcome) (summO : String → SummaryOutcome) :
    Resp × Cache × Counts :=
  if cache.data ≠ none ∧ now - cache.timestamp < CACHE_TTL then
    (⟨200, RespBody.records (cache.data.getD [])⟩, cache, ⟨0, 0, 0⟩)
  else
    let articles := fetch_news fetchO
    if articles = [] then
      (⟨404, RespBody.message "No articles found."⟩, cache, ⟨1, 0, 0⟩)
    else
      let pr := runPipeline extO summO articles
      (⟨200, RespBody.records pr.1⟩, ⟨now2, some pr.1⟩, ⟨1, pr.2.1, pr.2.2⟩)

/-- Statement-level trace of the cache update at src/main.py lines 138 to
139: the store is two separate field assignments on the module-level dict
(first the timestamp, then the data), so the trace holds the cache state
after each of the two assignments. -/
def cacheWriteTrace (cache : Cache) (now2 : Int) (results : List SummaryRecord) :
    List Cache :=
  [{ cache with timestamp := now2 },
   { timestamp := now2, data := some results }]

/-- True when the list holds two adjacent Python-whitespace characters. -/
def hasConsecWhitespace : List Char → Bool
  | c1 :: c2 :: rest => (pyIsSpace c1 && pyIsSpace c2) || hasConsecWhitespace (c2 :: rest)
  | _ => false

/-- True when the list holds two adjacent space (U+0020) characters. -/
def hasDoubleSpace : List Char → Bool
  | c1 :: c2 :: rest => (c1 == ' ' && c2 == ' ') || hasDoubleSpace (c2 :: rest)
  | _ => false

/-- No two adjacent space characters, as a chain predicate. -/
def NoDS (l : List Char) : Prop :=
  List.Chain' (fun a b => ¬(a = ' ' ∧ b = ' ')) l

/-- Sample extractor oracle that always raises. -/
def extOracleFail : String → ExtractOutcome := fun _ => ExtractOutcome.exn "network down"

/-- Sample summarizer oracle that always raises. -/
def summOracleFail : String → SummaryOutcome := fun _ => SummaryOutcome.exn "api down"

/-- Sample extractor oracle that always succeeds with fixed page text. -/
def extOracleOk : String → ExtractOutcome := fun _ => ExtractOutcome.ok "page body text"

/-- Sample summarizer oracle that always succeeds with a fixed summary. -/
def summOracleOk : String → SummaryOutcome := fun _ => SummaryOutcome.ok "a short summary"

/-- Sample article whose url key is present but holds Python None. -/
def articleNoUrl : Article :=
  { title := some (some "T1"), source := some (some "S1"), url := some none,
    published_at := none }

/-- Sample article with a usable url. -/
def articleWithUrl : Article :=
  { title := none, source := none, url := some (some "http://x"),
    published_at := some (some "2024-01-01") }

/-- Sample cached record used for cache-state scenarios. -/
def recordOld : SummaryRecord :=
  { title := some "t", source := some "s", url := some "u", published := some "p",
    summary := some "old summary", error := none }

/-- Sample freshly computed record used for cache-state scenarios. -/
def recordNew : SummaryRecord :=
  { title := some "t2", source := some "s2", url := some "u2", published := some "p2",
    summary := some "new summary", error := none }

/-- Helper: the no-URL branch of the loop body, src/main.py lines 133 to 134. -/
theorem processArticle_of_not_truthy (extO : String → ExtractOutcome)
    (summO : String → SummaryOutcome) (a : Article)
    (h : truthy (dictGet a.url) = false) :
    processArticle extO summO a =
      ({ title := dictGetD a.title "N/A", source := dictGetD a.source "N/A",
         url := dictGetD a.url "N/A", published := dictGetD a.published_at "N/A",
         summary := none, error := some "No URL available for article." }, 0, 0) := by
  simp [processArticle, h]

/-- Helper: the empty-extraction branch, src/main.py lines 131 to 132. -/
theorem processArticle_of_extract_empty (extO : String → ExtractOutcome)
    (summO : String → SummaryOutcome) (a : Article)
    (h1 : truthy (dictGet a.url) = true)
    (h2 : extract_content (extO ((dictGet a.url).getD "")) = "") :
    processArticle extO summO a =
      ({ title := dictGetD a.title "N/A", source := dictGetD a.source "N/A",
         url := dictGetD a.url "N/A", published := dictGetD a.published_at "N/A",
         summary := none, error := some "Could not extract article content." }, 1, 0) := by
  simp [processArticle, h1, h2]

/-- Helper: the empty-summary branch, src/main.py lines 129 to 130. -/
theorem processArticle_of_summary_empty (extO : String → ExtractOutcome)
    (summO : String → SummaryOutcome) (a : Article)
    (h1 : truthy (dictGet a.url) = true)
    (h2 : extract_content (extO ((dictGet a.url).getD "")) ≠ "")
    (h3 : generate_summary (summO (extract_content (extO ((dictGet a.url).getD "")))) = "") :
    processArticle extO summO a =
      ({ title := dictGetD a.title "N/A", source := dictGetD a.source "N/A",
         url := dictGetD a.url "N/A", published := dictGetD a.published_at "N/A",
         summary := none, error := some "Could not generate summary." }, 1, 1) := by
  simp [processArticle, h1, h2, h3]

/-- Helper: the success branch, src/main.py lines 127 to 128. -/
theorem processArticle_of_success (extO : String → ExtractOutcome)
    (summO : String → SummaryOutcome) (a : Article)
    (h1 : truthy (dictGet a.url) = true)
    (h2 : extract_content (extO ((dictGet a.url).getD "")) ≠ "")
    (h3 : generate_summary (summO (extract_content (extO ((dictGet a.url).getD "")))) ≠ "") :
    processArticle extO summO a =
      ({ title := dictGetD a.title "N/A", source := dictGetD a.source "N/A",
         url := dictGetD a.url "N/A", published := dictGetD a.published_at "N/A",
         summary :=
           some (generate_summary (summO (extract_content (extO ((dictGet a.url).getD ""))))),
         error := none }, 1, 1) := by
  simp [processArticle, h1, h2, h3]

/-- Helper: each article causes at most one extractor and one summarizer call. -/
theorem processArticle_counts_le (extO : String → ExtractOutcome)
    (summO : String → SummaryOutcome) (a : Article) :
    (processArticle extO summO a).2.1 ≤ 1 ∧ (processArticle extO summO a).2.2 ≤ 1 := by
  unfold processArticle
  dsimp only
  split
  · split
    · split
      · exact ⟨Nat.le_refl 1, Nat.le_refl 1⟩
      · exact ⟨Nat.le_refl 1, Nat.le_refl 1⟩
    · exact ⟨Nat.le_refl 1, Nat.zero_le 1⟩
  · exact ⟨Nat.zero_le 1, Nat.zero_le 1⟩

/-- Helper: the completed record has exactly one of summary and error set. -/
theorem processArticle_xor (extO : String → ExtractOutcome)
    (summO : String → SummaryOutcome) (a : Article) :
    ((processArticle extO summO a).1.summary ≠ none ∧
      (processArticle extO summO a).1.error = none) ∨
    ((processArticle extO summO a).1.summary = none ∧
      (processArticle extO summO a).1.error ≠ none) := by
  unfold processArticle
  dsimp only
  split
  · split
    · split
      · left; exact ⟨by simp, rfl⟩
      · right; exact ⟨rfl, by simp⟩
    · right; exact ⟨rfl, by simp⟩
  · right; exact ⟨rfl, by simp⟩

/-- Helper: the metadata fields never depend on the branch taken. -/
theorem processArticle_fields (extO : String → ExtractOutcome)
    (summO : String → SummaryOutcome) (a : Article) :
    (processArticle extO summO a).1.title = dictGetD a.title "N/A" ∧
    (processArticle extO summO a).1.source = dictGetD a.source "N/A" ∧
    (processArticle extO summO a).1.url = dictGetD a.url "N/A" ∧
    (processArticle extO summO a).1.published = dictGetD a.published_at "N/A" := by
  unfold processArticle
  dsimp only
  split
  · split
    · split
      · exact ⟨rfl, rfl, rfl, rfl⟩
      · exact ⟨rfl, rfl, rfl, rfl⟩
    · exact ⟨rfl, rfl, rfl, rfl⟩
  · exact ⟨rfl, rfl, rfl, rfl⟩

/-- Helper: the loop emits the per-article records in input order. -/
theorem runPipeline_records (extO : String → ExtractOutcome)
    (summO : String → SummaryOutcome) (arts : List Article) :
    (runPipeline extO summO arts).1 =
      arts.map (fun a => (processArticle extO summO a).1) := by
  induction arts with
  | nil => rfl
  | cons a rest ih => simp [runPipeline, ih]

/-- Helper: total extractor calls are the sum of the per-article calls. -/
theorem runPipeline_extCount (extO : String → ExtractOutcome)
    (summO : String → SummaryOutcome) (arts : List Article) :
    (runPipeline extO summO arts).2.1 =
      (arts.map (fun a => (processArticle extO summO a).2.1)).sum := by
  induction arts with
  | nil => rfl
  | cons a rest ih => simp [runPipeline, ih]

/-- Helper: total summarizer calls are the sum of the per-article calls. -/
theorem runPipeline_summCount (extO : String → ExtractOutcome)
    (summO : String → SummaryOutcome) (arts : List Article) :
    (runPipeline extO summO arts).2.2 =
      (arts.map (fun a => (processArticle extO summO a).2.2)).sum := by
  induction arts with
  | nil => rfl
  | cons a rest ih => simp [runPipeline, ih]

/-- Helper: on a stale cache the handler runs the fetch-and-aggregate path. -/
theorem get_summaries_stale (cache : Cache) (now now2 : Int) (fetchO : FetchOutcome)
    (extO : String → ExtractOutcome) (summO : String → SummaryOutcome)
    (hstale : cache.data = none ∨ CACHE_TTL ≤ now - cache.timestamp) :
    get_summaries cache now now2 fetchO extO summO =
      (if fetch_news fetchO = [] then
        (⟨404, RespBody.message "No articles found."⟩, cache, ⟨1, 0, 0⟩)
       else
        (⟨200, RespBody.records (runPipeline extO summO (fetch_news fetchO)).1⟩,
         ⟨now2, some (runPipeline extO summO (fetch_news fetchO)).1⟩,
         ⟨1, (runPipeline extO summO (fetch_news fetchO)).2.1,
          (runPipeline extO summO (fetch_news fetchO)).2.2⟩)) := by
  have hcond : ¬(cache.data ≠ none ∧ now - cache.timestamp < CACHE_TTL) := by
    rcases hstale with h | h
    · simp [h]
    · rintro ⟨_, hlt⟩
      omega
  rw [get_summaries, if_neg hcond]

/-- C1: every SummaryRecord produced by the aggregation pipeline has exactly
one of the summary field and the error field non-null once its processing
completes: success sets summary and leaves error null, every failure branch
sets error and leaves summary null. -/
theorem claim1_summary_xor_error (extO : String → ExtractOutcome)
    (summO : String → SummaryOutcome) (arts : List Article) (r : SummaryRecord)
    (hr : r ∈ (runPipeline extO summO arts).1) :
    (r.summary ≠ none ∧ r.error = none) ∨ (r.summary = none ∧ r.error ≠ none) := by
  rw [runPipeline_records] at hr
  obtain ⟨a, _, rfl⟩ := List.mem_map.1 hr
  exact processArticle_xor extO summO a

/-- Witness for C1 at a concrete article whose extraction fails. -/
theorem claim1_summary_xor_error_witness :
    ((processArticle extOracleFail summOracleFail articleWithUrl).1.summary ≠ none ∧
      (processArticle extOracleFail summOracleFail articleWithUrl).1.error = none) ∨
    ((processArticle extOracleFail summOracleFail articleWithUrl).1.summary = none ∧
      (processArticle extOracleFail summOracleFail articleWithUrl).1.error ≠ none) :=
  claim1_summary_xor_error extOracleFail summOracleFail [articleWithUrl]
    (processArticle extOracleFail summOracleFail articleWithUrl).1
    (by simp [runPipeline])

/-- C2: a request arriving while the cache holds data younger than the TTL
returns exactly the stored record list, leaves the cache untouched, and makes
zero fetch, extractor, or summarizer calls. -/
theorem claim2_fresh_hit (cache : Cache) (now now2 : Int) (fetchO : FetchOutcome)
    (extO : String → ExtractOutcome) (summO : String → SummaryOutcome)
    (d : List SummaryRecord) (hd : cache.data = some d)
    (hfresh : now - cache.timestamp < CACHE_TTL) :
    get_summaries cache now now2 fetchO extO summO =
      (⟨200, RespBody.records d⟩, cache, ⟨0, 0, 0⟩) := by
  have hcond : cache.data ≠ none ∧ now - cache.timestamp < CACHE_TTL :=
    ⟨by simp [hd], hfresh⟩
  rw [get_summaries, if_pos hcond]
  simp [hd]

/-- Witness for C2 with a populated fresh cache. -/
theorem claim2_fresh_hit_witness :
    get_summaries ⟨0, some [recordOld]⟩ 1 2 (FetchOutcome.exn "down")
        extOracleOk summOracleOk =
      (⟨200, RespBody.records [recordOld]⟩, ⟨0, some [recordOld]⟩, ⟨0, 0, 0⟩) :=
  claim2_fresh_hit ⟨0, some [recordOld]⟩ 1 2 (FetchOutcome.exn "down")
    extOracleOk summOracleOk [recordOld] rfl (by decide)

/-- C3: a stale-cache request makes exactly one fetch call and at most one
extractor call and one summarizer call per returned article, the totals
being the per-article sums; on a non-empty fetch it stores the new list with
the store-time clock reading and responds with that list. -/
theorem claim3_stale_recompute (cache : Cache) (now now2 : Int) (fetchO : FetchOutcome)
    (extO : String → ExtractOutcome) (summO : String → SummaryOutcome)
    (hstale : cache.data = none ∨ CACHE_TTL ≤ now - cache.timestamp) :
    (get_summaries cache now now2 fetchO extO summO).2.2.fetchCalls = 1 ∧
    (∀ a : Article,
      (processArticle extO summO a).2.1 ≤ 1 ∧ (processArticle extO summO a).2.2 ≤ 1) ∧
    (get_summaries cache now now2 fetchO extO summO).2.2.extCalls =
      ((fetch_news fetchO).map (fun a => (processArticle extO summO a).2.1)).sum ∧
    (get_summaries cache now now2 fetchO extO summO).2.2.summCalls =
      ((fetch_news fetchO).map (fun a => (processArticle extO summO a).2.2)).sum ∧
    (fetch_news fetchO ≠ [] →
      (get_summaries cache now now2 fetchO extO summO).2.1 =
        ⟨now2, some (runPipeline extO summO (fetch_news fetchO)).1⟩ ∧
      (get_summaries cache now now2 fetchO extO summO).1 =
        ⟨200, RespBody.records (runPipeline extO summO (fetch_news fetchO)).1⟩) := by
  rw [get_summaries_stale cache now now2 fetchO extO summO hstale]
  by_cases hemp : fetch_news fetchO = []
  · rw [if_pos hemp]
    refine ⟨rfl, fun a => processArticle_counts_le extO summO a, ?_, ?_, ?_⟩
    · simp [hemp]
    · simp [hemp]
    · intro h
      exact absurd hemp h
  · rw [if_neg hemp]
    exact ⟨rfl, fun a => processArticle_counts_le extO summO a,
      runPipeline_extCount extO summO _, runPipeline_summCount extO summO _,
      fun _ => ⟨rfl, rfl⟩⟩

/-- Witness for C3: an empty stale cache, one fetched article. -/
theorem claim3_stale_recompute_witness :
    (get_summaries ⟨0, none⟩ 0 5 (FetchOutcome.ok (some [articleWithUrl]))
        extOracleOk summOracleOk).2.1 =
      ⟨5, some (runPipeline extOracleOk summOracleOk
        (fetch_news (FetchOutcome.ok (some [articleWithUrl])))).1⟩ :=
  ((claim3_stale_recompute ⟨0, none⟩ 0 5 (FetchOutcome.ok (some [articleWithUrl]))
      extOracleOk summOracleOk (Or.inl rfl)).2.2.2.2 (by decide)).1

/-- C4: when the fetch of a stale-cache request yields no articles, the
handler answers 404 with the fixed message and the cache is left exactly as
it was; the empty result is never stored. -/
theorem claim4_empty_fetch_404 (cache : Cache) (now now2 : Int) (fetchO : FetchOutcome)
    (extO : String → ExtractOutcome) (summO : String → SummaryOutcome)
    (hstale : cache.data = none ∨ CACHE_TTL ≤ now - cache.timestamp)
    (hempty : fetch_news fetchO = []) :
    get_summaries cache now now2 fetchO extO summO =
      (⟨404, RespBody.message "No articles found."⟩, cache, ⟨1, 0, 0⟩) := by
  rw [get_summaries_stale cache now now2 fetchO extO summO hstale, if_pos hempty]

/-- Witness for C4: empty cache and a failing fetch. -/
theorem claim4_empty_fetch_404_witness :
    get_summaries ⟨0, none⟩ 0 5 (FetchOutcome.exn "down") extOracleOk summOracleOk =
      (⟨404, RespBody.message "No articles found."⟩, ⟨0, none⟩, ⟨1, 0, 0⟩) :=
  claim4_empty_fetch_404 ⟨0, none⟩ 0 5 (FetchOutcome.exn "down")
    extOracleOk summOracleOk (Or.inl rfl) rfl

/-- C5: the pipeline yields exactly one record per article in input order,
with the branch order no-URL, then empty extraction, then empty summary,
then success; a failing article never aborts the rest of the batch. -/
theorem claim5_pipeline_shape (extO : String → ExtractOutcome)
    (summO : String → SummaryOutcome) (arts : List Article) :
    (runPipeline extO summO arts).1 =
      arts.map (fun a => (processArticle extO summO a).1) ∧
    (runPipeline extO summO arts).1.length = arts.length ∧
    ∀ a : Article,
      (truthy (dictGet a.url) = false →
        (processArticle extO summO a).1.error = some "No URL available for article." ∧
        (processArticle extO summO a).1.summary = none) ∧
      (truthy (dictGet a.url) = true →
        extract_content (extO ((dictGet a.url).getD "")) = "" →
        (processArticle extO summO a).1.error = some "Could not extract article content." ∧
        (processArticle extO summO a).1.summary = none) ∧
      (truthy (dictGet a.url) = true →
        extract_content (extO ((dictGet a.url).getD "")) ≠ "" →
        generate_summary (summO (extract_content (extO ((dictGet a.url).getD "")))) = "" →
        (processArticle extO summO a).1.error = some "Could not generate summary." ∧
        (processArticle extO summO a).1.summary = none) ∧
      (truthy (dictGet a.url) = true →
        extract_content (extO ((dictGet a.url).getD "")) ≠ "" →
        generate_summary (summO (extract_content (extO ((dictGet a.url).getD "")))) ≠ "" →
        (processArticle extO summO a).1.summary =
          some (generate_summary
            (summO (extract_content (extO ((dictGet a.url).getD ""))))) ∧
        (processArticle extO summO a).1.error = none) := by
  refine ⟨runPipeline_records extO summO arts, ?_, ?_⟩
  · rw [runPipeline_records]
    simp
  · intro a
    refine ⟨?_, ?_, ?_, ?_⟩
    · intro h
      rw [processArticle_of_not_truthy extO summO a h]
      exact ⟨rfl, rfl⟩
    · intro h1 h2
      rw [processArticle_of_extract_empty extO summO a h1 h2]
      exact ⟨rfl, rfl⟩
    · intro h1 h2 h3
      rw [processArticle_of_summary_empty extO summO a h1 h2 h3]
      exact ⟨rfl, rfl⟩
    · intro h1 h2 h3
      rw [processArticle_of_success extO summO a h1 h2 h3]
      exact ⟨rfl, rfl⟩

/-- Witness for C5: a single no-URL article yields one error record. -/
theorem claim5_pipeline_shape_witness :
    (runPipeline extOracleFail summOracleFail [articleNoUrl]).1.length =
      ([articleNoUrl] : List Article).length ∧
    (processArticle extOracleFail summOracleFail articleNoUrl).1.error =
      some "No URL available for article." :=
  ⟨(claim5_pipeline_shape extOracleFail summOracleFail [articleNoUrl]).2.1,
   (((claim5_pipeline_shape extOracleFail summOracleFail [articleNoUrl]).2.2
      articleNoUrl).1 (by decide)).1⟩

/-- C6: each wrapper turns the exception of its external call into the empty
fallback value at its own call site; the model functions being total on
every outcome, no exception reaches the HTTP layer. -/
theorem claim6_no_exception_escapes :
    (∀ msg, fetch_news (FetchOutcome.exn msg) = []) ∧
    (∀ msg, extract_content (ExtractOutcome.exn msg) = "") ∧
    (∀ msg, generate_summary (SummaryOutcome.exn msg) = "") :=
  ⟨fun _ => rfl, fun _ => rfl, fun _ => rfl⟩

/-- C8 counterexample: the store at src/main.py lines 138 to 139 is two
separate field assignments, so after the first assignment the cache pairs
the new timestamp with the old data, contradicting a whole-object
replacement with no such intermediate point. -/
theorem claim8_field_update_counterexample :
    cacheWriteTrace ⟨0, some [recordOld]⟩ 100 [recordNew] =
      [⟨100, some [recordOld]⟩, ⟨100, some [recordNew]⟩] ∧
    (⟨100, some [recordOld]⟩ : Cache).timestamp ≠ (0 : Int) ∧
    (⟨100, some [recordOld]⟩ : Cache).data = some [recordOld] ∧
    some [recordNew] ≠ some [recordOld] :=
  ⟨rfl, by decide, rfl, by decide⟩

/-- C8 amended: the cache is written only after the full aggregation pass
and the data field receives the complete result list in a single assignment,
so no partially built list is ever stored; but the update is two field-level
assignments, and between them the cache transiently pairs the new timestamp
with the old data. -/
theorem claim8_cache_update_shape (cache : Cache) (now now2 : Int)
    (fetchO : FetchOutcome) (extO : String → ExtractOutcome)
    (summO : String → SummaryOutcome) :
    ((get_summaries cache now now2 fetchO extO summO).2.1 = cache ∨
      (get_summaries cache now now2 fetchO extO summO).2.1 =
        ⟨now2, some (runPipeline extO summO (fetch_news fetchO)).1⟩) ∧
    (cacheWriteTrace cache now2 (runPipeline extO summO (fetch_news fetchO)).1).map
        Cache.data =
      [cache.data, some (runPipeline extO summO (fetch_news fetchO)).1] ∧
    (cacheWriteTrace cache now2 (runPipeline extO summO (fetch_news fetchO)).1).head? =
      some ⟨now2, cache.data⟩ := by
  refine ⟨?_, rfl, rfl⟩
  unfold get_summaries
  split
  · left
    rfl
  · dsimp only
    split
    · left
      rfl
    · right
      rfl

/-- C9: the metadata fields of a record copy the article values whenever the
key is present, a present null passing through as null; the default string
is used only when the key is entirely absent. -/
theorem claim9_metadata_passthrough (extO : String → ExtractOutcome)
    (summO : String → SummaryOutcome) (a : Article) :
    ((a.title = none → (processArticle extO summO a).1.title = some "N/A") ∧
      ∀ v, a.title = some v → (processArticle extO summO a).1.title = v) ∧
    ((a.source = none → (processArticle extO summO a).1.source = some "N/A") ∧
      ∀ v, a.source = some v → (processArticle extO summO a).1.source = v) ∧
    ((a.url = none → (processArticle extO summO a).1.url = some "N/A") ∧
      ∀ v, a.url = some v → (processArticle extO summO a).1.url = v) ∧
    ((a.published_at = none → (processArticle extO summO a).1.published = some "N/A") ∧
      ∀ v, a.published_at = some v → (processArticle extO summO a).1.published = v) := by
  obtain ⟨ht, hs, hu, hp⟩ := processArticle_fields extO summO a
  refine ⟨⟨?_, ?_⟩, ⟨?_, ?_⟩, ⟨?_, ?_⟩, ⟨?_, ?_⟩⟩
  · intro h
    rw [ht, h]
    rfl
  · intro v h
    rw [ht, h]
    rfl
  · intro h
    rw [hs, h]
    rfl
  · intro v h
    rw [hs, h]
    rfl
  · intro h
    rw [hu, h]
    rfl
  · intro v h
    rw [hu, h]
    rfl
  · intro h
    rw [hp, h]
    rfl
  · intro v h
    rw [hp, h]
    rfl

/-- Witness for C9: a present title value passes through, a present null url
passes through as null, and an absent published key defaults. -/
theorem claim9_metadata_passthrough_witness :
    (processArticle extOracleOk summOracleOk articleNoUrl).1.title = some "T1" ∧
    (processArticle extOracleOk summOracleOk articleNoUrl).1.url = none ∧
    (processArticle extOracleOk summOracleOk articleNoUrl).1.published = some "N/A" :=
  ⟨(claim9_metadata_passthrough extOracleOk summOracleOk articleNoUrl).1.2
      (some "T1") rfl,
   (claim9_metadata_passthrough extOracleOk summOracleOk articleNoUrl).2.2.1.2
      none rfl,
   (claim9_metadata_passthrough extOracleOk summOracleOk articleNoUrl).2.2.2.1 rfl⟩

/-- C10: a url key present with a falsy value (null or the empty string)
takes the no-URL branch by truthiness, recording the no-URL error with a
null summary and making zero extractor and summarizer calls. -/
theorem claim10_falsy_url (extO : String → ExtractOutcome)
    (summO : String → SummaryOutcome) (a : Article)
    (h : a.url = some none ∨ a.url = some (some "")) :
    (processArticle extO summO a).1.error = some "No URL available for article." ∧
    (processArticle extO summO a).1.summary = none ∧
    (processArticle extO summO a).2.1 = 0 ∧
    (processArticle extO summO a).2.2 = 0 := by
  have ht : truthy (dictGet a.url) = false := by
    rcases h with h | h <;> rw [h] <;> rfl
  rw [processArticle_of_not_truthy extO summO a ht]
  exact ⟨rfl, rfl, rfl, rfl⟩

/-- Witness for C10: the sample article with a present null url. -/
theorem claim10_falsy_url_witness :
    (processArticle extOracleOk summOracleOk articleNoUrl).1.error =
      some "No URL available for article." ∧
    (processArticle extOracleOk summOracleOk articleNoUrl).1.summary = none ∧
    (processArticle extOracleOk summOracleOk articleNoUrl).2.1 = 0 ∧
    (processArticle extOracleOk summOracleOk articleNoUrl).2.2 = 0 :=
  claim10_falsy_url extOracleOk summOracleOk articleNoUrl (Or.inl rfl)

/-- Helper: the head of a dropWhile result falsifies the predicate. -/
theorem dropWhile_head_false (p : Char → Bool) (l : List Char) (c : Char)
    (h : (l.dropWhile p).head? = some c) : p c = false := by
  induction l with
  | nil => simp [List.dropWhile] at h
  | cons a rest ih =>
    rw [List.dropWhile_cons] at h
    split at h
    · exact ih h
    · next hpa =>
      simp only [Bool.not_eq_true] at hpa
      simp only [List.head?_cons, Option.some.injEq] at h
      exact h ▸ hpa

/-- Helper: the boolean double-space scan agrees with the chain predicate. -/
theorem hasDoubleSpace_eq_false_iff (l : List Char) :
    hasDoubleSpace l = false ↔ NoDS l := by
  induction l with
  | nil => simp [hasDoubleSpace, NoDS]
  | cons a rest ih =>
    cases rest with
    | nil => simp [hasDoubleSpace, NoDS]
    | cons b rest2 =>
      rw [hasDoubleSpace, NoDS, List.chain'_cons, Bool.or_eq_false_iff]
      constructor
      · rintro ⟨h1, h2⟩
        refine ⟨?_, ih.1 h2⟩
        rintro ⟨ha, hb⟩
        rw [ha, hb] at h1
        simp at h1
      · rintro ⟨h1, h2⟩
        refine ⟨?_, ih.2 h2⟩
        rw [Bool.and_eq_false_iff]
        by_cases ha : a = ' '
        · right
          rw [beq_eq_false_iff_ne]
          intro hb
          exact h1 ⟨ha, hb⟩
        · left
          rw [beq_eq_false_iff_ne]
          exact ha

/-- Helper: a space character has pyIsSpace true, contrapositively. -/
theorem ne_space_of_not_pyIsSpace (c : Char) (h : pyIsSpace c = false) : c ≠ ' ' := by
  intro hc
  rw [hc] at h
  exact absurd h (by decide)

/-- Helper: the double-space split never returns an empty piece list. -/
theorem splitTwoSpaces_ne_nil (l : List Char) : splitTwoSpaces l ≠ [] := by
  induction l using splitTwoSpaces.induct with
  | case1 => simp [splitTwoSpaces]
  | case2 c => simp [splitTwoSpaces]
  | case3 c1 c2 rest hcond ih => simp [splitTwoSpaces, hcond]
  | case4 c1 c2 rest hcond p ps heq ih =>
    simp [splitTwoSpaces, hcond, heq]
  | case5 c1 c2 rest hcond heq ih =>
    simp [splitTwoSpaces, hcond, heq]

/-- Helper: a non-empty first piece of the split starts with the first input
character. -/
theorem splitTwoSpaces_head (l : List Char) :
    ∀ c p ps, splitTwoSpaces l = (c :: p) :: ps → l.head? = some c := by
  induction l using splitTwoSpaces.induct with
  | case1 =>
    intro c p ps h
    simp [splitTwoSpaces] at h
  | case2 d =>
    intro c p ps h
    simp only [splitTwoSpaces, List.cons.injEq] at h
    obtain ⟨⟨hc, -⟩, -⟩ := h
    rw [← hc]
    rfl
  | case3 c1 c2 rest hcond ih =>
    intro c p ps h
    simp [splitTwoSpaces, hcond] at h
  | case4 c1 c2 rest hcond p0 ps0 heq ih =>
    intro c p ps h
    rw [splitTwoSpaces, if_neg hcond, heq] at h
    simp only [List.cons.injEq] at h
    obtain ⟨⟨hc, -⟩, -⟩ := h
    rw [← hc]
    rfl
  | case5 c1 c2 rest hcond heq ih =>
    intro c p ps h
    rw [splitTwoSpaces, if_neg hcond, heq] at h
    simp only [List.cons.injEq] at h
    obtain ⟨⟨hc, -⟩, -⟩ := h
    rw [← hc]
    rfl

/-- Helper: each piece of the double-space split has no two adjacent
spaces. -/
theorem splitTwoSpaces_noDS (l : List Char) :
    ∀ q ∈ splitTwoSpaces l, NoDS q := by
  induction l using splitTwoSpaces.induct with
  | case1 =>
    intro q hq
    simp [splitTwoSpaces] at hq
    rw [hq]
    exact List.chain'_nil
  | case2 c =>
    intro q hq
    simp [splitTwoSpaces] at hq
    rw [hq]
    exact List.chain'_singleton c
  | case3 c1 c2 rest hcond ih =>
    intro q hq
    rw [splitTwoSpaces, if_pos hcond] at hq
    rcases List.mem_cons.1 hq with rfl | hq2
    · exact List.chain'_nil
    · exact ih q hq2
  | case4 c1 c2 rest hcond p0 ps0 heq ih =>
    intro q hq
    rw [splitTwoSpaces, if_neg hcond, heq] at hq
    rcases List.mem_cons.1 hq with rfl | hq2
    · have hp0 : NoDS p0 := ih p0 (heq ▸ List.mem_cons_self p0 ps0)
      rw [NoDS, List.chain'_cons']
      refine ⟨?_, hp0⟩
      intro y hy hpair
      obtain ⟨hc1, hy'⟩ := hpair
      cases p0 with
      | nil => simp at hy
      | cons y0 p1 =>
        simp only [List.head?_cons, Option.mem_def, Option.some.injEq] at hy
        have hh : (c2 :: rest).head? = some y0 :=
          splitTwoSpaces_head (c2 :: rest) y0 p1 ps0 heq
        simp only [List.head?_cons, Option.some.injEq] at hh
        exact hcond ⟨hc1, by rw [hh, hy, hy']⟩
    · exact ih q (heq ▸ List.mem_cons_of_mem p0 hq2)
  | case5 c1 c2 rest hcond heq ih =>
    intro q hq
    rw [splitTwoSpaces, if_neg hcond, heq] at hq
    rcases List.mem_cons.1 hq with rfl | hq2
    · exact List.chain'_singleton c1
    · simp at hq2

/-- Helper: reversal preserves the no-double-space property. -/
theorem NoDS_reverse (l : List Char) (h : NoDS l) : NoDS l.reverse := by
  rw [NoDS, List.chain'_reverse]
  exact List.Chain'.imp (fun a b hab => fun hpair => hab ⟨hpair.2, hpair.1⟩) h

/-- Helper: stripping preserves the no-double-space property. -/
theorem NoDS_pyStrip (l : List Char) (h : NoDS l) : NoDS (pyStrip l) := by
  have h1 : NoDS (pyLStrip l) :=
    List.Chain'.suffix h (List.dropWhile_suffix pyIsSpace)
  have h2 : NoDS (pyLStrip l).reverse := NoDS_reverse _ h1
  have h3 : NoDS ((pyLStrip l).reverse.dropWhile pyIsSpace) :=
    List.Chain'.suffix h2 (List.dropWhile_suffix pyIsSpace)
  exact NoDS_reverse _ h3

/-- Helper: a stripped list never starts with whitespace. -/
theorem pyStrip_head_false (l : List Char) (c : Char)
    (h : (pyStrip l).head? = some c) : pyIsSpace c = false := by
  unfold pyStrip pyRStrip at h
  rw [List.head?_reverse] at h
  obtain ⟨t, htB⟩ := List.dropWhile_suffix (l := (pyLStrip l).reverse) pyIsSpace
  have hBne : (pyLStrip l).reverse.dropWhile pyIsSpace ≠ [] := by
    intro hB0
    rw [hB0] at h
    simp at h
  have hlast : ((pyLStrip l).reverse).getLast? = some c := by
    rw [← htB, List.getLast?_append_of_ne_nil t hBne]
    exact h
  rw [List.getLast?_reverse] at hlast
  exact dropWhile_head_false pyIsSpace l c hlast

/-- Helper: a stripped list never ends with whitespace. -/
theorem pyStrip_getLast_false (l : List Char) (c : Char)
    (h : (pyStrip l).getLast? = some c) : pyIsSpace c = false := by
  unfold pyStrip pyRStrip at h
  rw [List.getLast?_reverse] at h
  exact dropWhile_head_false pyIsSpace (pyLStrip l).reverse c h

/-- Helper: joining non-empty chunks never yields the empty list. -/
theorem joinSpace_ne_nil :
    ∀ cs : List (List Char), (∀ p ∈ cs, p ≠ []) → cs ≠ [] → joinSpace cs ≠ [] := by
  intro cs
  induction cs with
  | nil =>
    intro _ h
    exact absurd rfl h
  | cons p rest ih =>
    intro hne _
    cases rest with
    | nil =>
      simpa [joinSpace] using hne p (List.mem_cons_self p [])
    | cons q rest2 =>
      show p ++ ' ' :: joinSpace (q :: rest2) ≠ []
      simp

/-- Helper: joining whitespace-trimmed, internally clean, non-empty chunks
with single spaces yields a list with no double space and non-whitespace
endpoints. -/
theorem joinSpace_good :
    ∀ cs : List (List Char),
    (∀ p ∈ cs, p ≠ [] ∧ NoDS p ∧
      (∀ c, p.head? = some c → pyIsSpace c = false) ∧
      (∀ c, p.getLast? = some c → pyIsSpace c = false)) →
    NoDS (joinSpace cs) ∧
    (∀ c, (joinSpace cs).head? = some c → pyIsSpace c = false) ∧
    (∀ c, (joinSpace cs).getLast? = some c → pyIsSpace c = false) := by
  intro cs
  induction cs with
  | nil =>
    intro _
    refine ⟨List.chain'_nil, ?_, ?_⟩ <;> intro c h <;> simp [joinSpace] at h
  | cons p rest ih =>
    intro hcs
    obtain ⟨hpne, hpNoDS, hpHead, hpLast⟩ := hcs p (List.mem_cons_self p rest)
    cases rest with
    | nil => exact ⟨hpNoDS, hpHead, hpLast⟩
    | cons q rest2 =>
      have hrest := fun r hr => hcs r (List.mem_cons_of_mem p hr)
      obtain ⟨ihNoDS, ihHead, ihLast⟩ := ih hrest
      have hJne : joinSpace (q :: rest2) ≠ [] :=
        joinSpace_ne_nil (q :: rest2) (fun r hr => (hrest r hr).1) (by simp)
      have hjoin : joinSpace (p :: q :: rest2) = p ++ ' ' :: joinSpace (q :: rest2) := rfl
      rw [hjoin]
      refine ⟨?_, ?_, ?_⟩
      · rw [NoDS, List.chain'_append]
        refine ⟨hpNoDS, ?_, ?_⟩
        · rw [List.chain'_cons']
          refine ⟨?_, ihNoDS⟩
          intro y hy hpair
          have hyf : pyIsSpace y = false := ihHead y hy
          exact ne_space_of_not_pyIsSpace y hyf hpair.2
        · intro x hx y hy hpair
          have hxf : pyIsSpace x = false := hpLast x hx
          exact ne_space_of_not_pyIsSpace x hxf hpair.1
      · intro c h
        cases p with
        | nil => exact absurd rfl hpne
        | cons a t =>
          simp only [List.cons_append, List.head?_cons, Option.some.injEq] at h
          exact h ▸ hpHead a rfl
      · intro c h
        have hcons : (' ' :: joinSpace (q :: rest2)) ≠ [] := by simp
        rw [List.getLast?_append_of_ne_nil p hcons] at h
        have h2 : ([' '] ++ joinSpace (q :: rest2)).getLast? = some c := h
        rw [List.getLast?_append_of_ne_nil [' '] hJne] at h2
        exact ihLast c h2

/-- Helper: the normalization output has no double space and trimmed
endpoints. -/
theorem normalizeChars_good (l : List Char) :
    NoDS (normalizeChars l) ∧
    (∀ c, (normalizeChars l).head? = some c → pyIsSpace c = false) ∧
    (∀ c, (normalizeChars l).getLast? = some c → pyIsSpace c = false) := by
  unfold normalizeChars
  apply joinSpace_good
  intro p hp
  rw [List.mem_filter] at hp
  obtain ⟨hp1, hp2⟩ := hp
  obtain ⟨q, hq, rfl⟩ := List.mem_map.1 hp1
  refine ⟨by simpa using hp2, ?_,
    fun c h => pyStrip_head_false q c h,
    fun c h => pyStrip_getLast_false q c h⟩
  rw [List.mem_flatten] at hq
  obtain ⟨pieces, hpieces, hqin⟩ := hq
  obtain ⟨line, -, rfl⟩ := List.mem_map.1 hpieces
  exact NoDS_pyStrip q (splitTwoSpaces_noDS line q hqin)

/-- C7 counterexample: the page text of a document holding a tab between
spaces inside one line passes through extract_content unchanged, so the
returned string still holds consecutive whitespace characters; runs of
whitespace other than double spaces and line breaks are not collapsed. -/
theorem claim7_tab_counterexample :
    extract_content (ExtractOutcome.ok "a \t b") = "a \t b" ∧
    hasConsecWhitespace ((extract_content (ExtractOutcome.ok "a \t b")).data) = true := by
  constructor
  · decide
  · decide

/-- C7 amended: for every successfully fetched document, the returned string
never holds two adjacent space characters and neither starts nor ends with
whitespace; runs of two or more spaces and line boundaries collapse, but
other whitespace characters inside a line survive. -/
theorem claim7_normalized_spacing (t : String) :
    hasDoubleSpace ((extract_content (ExtractOutcome.ok t)).data) = false ∧
    (∀ c, ((extract_content (ExtractOutcome.ok t)).data).head? = some c →
      pyIsSpace c = false) ∧
    (∀ c, ((extract_content (ExtractOutcome.ok t)).data).getLast? = some c →
      pyIsSpace c = false) := by
  have hdata : (extract_content (ExtractOutcome.ok t)).data = normalizeChars t.data := rfl
  rw [hdata]
  obtain ⟨h1, h2, h3⟩ := normalizeChars_good t.data
  exact ⟨(hasDoubleSpace_eq_false_iff _).2 h1, h2, h3⟩

/-- Witness for the amended C7 at a concrete document text. -/
theorem claim7_normalized_spacing_witness :
    hasDoubleSpace ((extract_content (ExtractOutcome.ok "hey  there")).data) = false ∧
    pyIsSpace 'h' = false :=
  ⟨(claim7_normalized_spacing "hey  there").1,
   (claim7_normalized_spacing "hey  there").2.1 'h' (by decide)⟩

end NewsFlash
